import Mathlib

set_option maxRecDepth 2000
set_option maxHeartbeats 1000000

/-!
Verification development for the KeePass-to-Dropbox backup tool
(`keepass_backup.py`).  The remote store is modelled as an association
list from paths to byte lists; every remote call's success or failure is
driven by an `Oracle` record; the orchestrator `backup_keepass`, the
`rollback` engine and all helper functions are shallow embeddings of the
corresponding Python functions.
-/

namespace KeepassBackup

/-! ### Byte-chunking (models reading a file in 4096-byte blocks) -/

/-- Fuel-driven worker for `chunksOf`. -/
def chunksGo {α : Type} (n : Nat) : Nat → List α → List (List α)
  | _, [] => []
  | 0, _ :: _ => []
  | fuel+1, a :: as => (a :: as).take n :: chunksGo n fuel ((a :: as).drop n)

/-- Split a list into consecutive chunks of at most `n` elements
(the last chunk may be shorter), as `iter(lambda: f.read(4096), b"")`
produces. -/
def chunksOf {α : Type} (n : Nat) (l : List α) : List (List α) :=
  chunksGo n l.length l

/-! ### SHA-256, executable embedding of `hashlib.sha256`
(the external hash library used by `calculate_checksum`). -/

/-- Truncate to a 32-bit word. -/
def w32 (n : Nat) : Nat := n % 4294967296

/-- 32-bit bitwise complement (valid for `x < 2^32`). -/
def notw (x : Nat) : Nat := 4294967295 - w32 x

/-- Right rotation of a 32-bit word. -/
def rotr (n x : Nat) : Nat := w32 ((x >>> n) ||| (x <<< (32 - n)))

def ch (x y z : Nat) : Nat := w32 ((x &&& y) ^^^ (notw x &&& z))

def maj (x y z : Nat) : Nat := w32 ((x &&& y) ^^^ (x &&& z) ^^^ (y &&& z))

def bs0 (x : Nat) : Nat := rotr 2 x ^^^ rotr 13 x ^^^ rotr 22 x

def bs1 (x : Nat) : Nat := rotr 6 x ^^^ rotr 11 x ^^^ rotr 25 x

def ss0 (x : Nat) : Nat := rotr 7 x ^^^ rotr 18 x ^^^ (x >>> 3)

def ss1 (x : Nat) : Nat := rotr 17 x ^^^ rotr 19 x ^^^ (x >>> 10)

/-- The 64 SHA-256 round constants, written in decimal. -/
def K256 : List Nat :=
  [1116352408, 1899447441, 3049323471, 3921009573, 961987163,
   1508970993, 2453635748, 2870763221, 3624381080, 310598401,
   607225278, 1426881987, 1925078388, 2162078206, 2614888103,
   3248222580, 3835390401, 4022224774, 264347078, 604807628,
   770255983, 1249150122, 1555081692, 1996064986, 2554220882,
   2821834349, 2952996808, 3210313671, 3336571891, 3584528711,
   113926993, 338241895, 666307205, 773529912, 1294757372,
   1396182291, 1695183700, 1986661051, 2177026350, 2456956037,
   2730485921, 2820302411, 3259730800, 3345764771, 3516065817,
   3600352804, 4094571909, 275423344, 430227734, 506948616,
   659060556, 883997877, 958139571, 1322822218, 1537002063,
   1747873779, 1955562222, 2024104815, 2227730452, 2361852424,
   2428436474, 2756734187, 3204031479, 3329325298]

/-- Running state of the compression function: eight 32-bit words. -/
structure Hash8 where
  a0 : Nat
  a1 : Nat
  a2 : Nat
  a3 : Nat
  a4 : Nat
  a5 : Nat
  a6 : Nat
  a7 : Nat
deriving DecidableEq, Repr

/-- The SHA-256 initial hash value, written in decimal. -/
def initH : Hash8 :=
  ⟨1779033703, 3144134277, 1013904242, 2773480762,
   1359893119, 2600822924, 528734635, 1541459225⟩

/-- The 8 big-endian bytes of `64 * len` (the message bit length). -/
def lenBytes (bitLen : Nat) : List Nat :=
  [bitLen / 72057594037927936 % 256, bitLen / 281474976710656 % 256,
   bitLen / 1099511627776 % 256, bitLen / 4294967296 % 256,
   bitLen / 16777216 % 256, bitLen / 65536 % 256, bitLen / 256 % 256, bitLen % 256]

/-- Merkle–Damgård padding: append `0x80`, zeros to 56 mod 64, then the
64-bit big-endian bit length. -/
def padMessage (msg : List Nat) : List Nat :=
  let r := msg.length % 64
  let padZeros := (119 - r) % 64
  msg ++ 128 :: List.replicate padZeros 0 ++ lenBytes (msg.length * 8)

/-- Big-endian packing of bytes into 32-bit words. -/
def bytesToWords : List Nat → List Nat
  | b0 :: b1 :: b2 :: b3 :: rest =>
      w32 (b0 % 256 * 16777216 + b1 % 256 * 65536 + b2 % 256 * 256 + b3 % 256) :: bytesToWords rest
  | _ => []

/-- One extension step of the message schedule. -/
def schedStep (ws : List Nat) : List Nat :=
  let n := ws.length
  ws ++ [w32 (ss1 (ws.getD (n - 2) 0) + ws.getD (n - 7) 0 + ss0 (ws.getD (n - 15) 0) + ws.getD (n - 16) 0)]

/-- Extend a 16-word block to the 64-word message schedule. -/
def schedule (block : List Nat) : List Nat :=
  (List.range 48).foldl (fun ws _ => schedStep ws) block

/-- One SHA-256 round. -/
def roundStep (s : Hash8) (k w : Nat) : Hash8 :=
  let t1 := w32 (s.a7 + bs1 s.a4 + ch s.a4 s.a5 s.a6 + k + w)
  let t2 := w32 (bs0 s.a0 + maj s.a0 s.a1 s.a2)
  ⟨w32 (t1 + t2), s.a0, s.a1, s.a2, w32 (s.a3 + t1), s.a4, s.a5, s.a6⟩

/-- Process one 64-byte block. -/
def compressBlock (h : Hash8) (block : List Nat) : Hash8 :=
  let ws := schedule (bytesToWords block)
  let s := (K256.zip ws).foldl (fun s kw => roundStep s kw.1 kw.2) h
  ⟨w32 (h.a0 + s.a0), w32 (h.a1 + s.a1), w32 (h.a2 + s.a2), w32 (h.a3 + s.a3),
   w32 (h.a4 + s.a4), w32 (h.a5 + s.a5), w32 (h.a6 + s.a6), w32 (h.a7 + s.a7)⟩

/-- Full SHA-256 over a byte list. -/
def sha256 (msg : List Nat) : Hash8 :=
  (chunksOf 64 (padMessage msg)).foldl compressBlock initH

/-- Lower-case hex digit. -/
def hexDigit (n : Nat) : Char :=
  if n < 10 then Char.ofNat (48 + n) else Char.ofNat (87 + n % 16)

/-- The 8 hex characters of a 32-bit word. -/
def hexWord (w : Nat) : List Char :=
  [hexDigit (w / 268435456 % 16), hexDigit (w / 16777216 % 16),
   hexDigit (w / 1048576 % 16), hexDigit (w / 65536 % 16),
   hexDigit (w / 4096 % 16), hexDigit (w / 256 % 16),
   hexDigit (w / 16 % 16), hexDigit (w % 16)]

/-- `hashlib`'s `hexdigest()`: the 64-character lower-case hex rendering. -/
def sha256hex (msg : List Nat) : String :=
  let h := sha256 msg
  String.mk (hexWord h.a0 ++ hexWord h.a1 ++ hexWord h.a2 ++ hexWord h.a3 ++
             hexWord h.a4 ++ hexWord h.a5 ++ hexWord h.a6 ++ hexWord h.a7)

/-- Embedding of `calculate_checksum`: the file's bytes are read in
4096-byte blocks, each fed to the incremental hash (whose absorbed-bytes
state is modelled as the list of bytes fed so far), then `hexdigest()`. -/
def calculate_checksum (content : List Nat) : String :=
  sha256hex ((chunksOf 4096 content).foldl (fun acc chunk => acc ++ chunk) [])

/-! ### Path and filename manipulation
Embeddings of `pathlib.Path.stem`, `Path.suffix`, `Path.name`,
`str.rstrip('/')` and the timestamped backup filename. -/

/-- Index of the last `'.'` in a character list (`str.rfind('.')`). -/
def rfindDot : List Char → Option Nat
  | [] => none
  | c :: rest =>
      match rfindDot rest with
      | some i => some (i + 1)
      | none => if c = '.' then some 0 else none

/-- `pathlib` splits `name` into `(stem, suffix)` at the last dot,
provided that dot is neither the first nor the last character. -/
def splitExt (name : String) : String × String :=
  let cs := name.data
  match rfindDot cs with
  | some i =>
      if 0 < i ∧ i < cs.length - 1 then (String.mk (cs.take i), String.mk (cs.drop i))
      else (name, "")
  | none => (name, "")

/-- `Path(name).stem`. -/
def stemOf (name : String) : String := (splitExt name).1

/-- `Path(name).suffix`. -/
def suffixOf (name : String) : String := (splitExt name).2

/-- `Path(p).name`: the part after the last `'/'`. -/
def basename (p : String) : String :=
  String.mk ((p.data.reverse.takeWhile (fun c => c ≠ '/')).reverse)

/-- `folder.rstrip('/')`. -/
def rstripSlash (s : String) : String :=
  String.mk ((s.data.reverse.dropWhile (fun c => c = '/')).reverse)

/-- A wall-clock timestamp with second resolution (`datetime.now()`). -/
structure Timestamp where
  year : Nat
  month : Nat
  day : Nat
  hour : Nat
  minute : Nat
  second : Nat
deriving DecidableEq, Repr

/-- The decimal digit character for `n % 10`. -/
def digitChar (n : Nat) : Char := Char.ofNat (48 + n % 10)

/-- Two-digit zero-padded rendering (as `strftime` produces for the
in-range month/day/hour/minute/second fields). -/
def pad2 (n : Nat) : String := String.mk [digitChar (n / 10), digitChar n]

/-- Four-digit zero-padded rendering (as `strftime('%Y')` produces for
in-range years). -/
def pad4 (n : Nat) : String :=
  String.mk [digitChar (n / 1000), digitChar (n / 100), digitChar (n / 10), digitChar n]

/-- `strftime('%Y-%m-%d_%H-%M-%S')`. -/
def formatTimestamp (t : Timestamp) : String :=
  pad4 t.year ++ "-" ++ pad2 t.month ++ "-" ++ pad2 t.day ++ "_" ++
  pad2 t.hour ++ "-" ++ pad2 t.minute ++ "-" ++ pad2 t.second

/-- Embedding of `generate_backup_filename`, with the run's wall-clock
time passed explicitly. -/
def generate_backup_filename (now : Timestamp) (original_name : String) : String :=
  stemOf original_name ++ "_" ++ formatTimestamp now ++ suffixOf original_name

/-! ### The remote store and the run model -/

/-- The remote store: an association list from Dropbox paths to stored
byte content (first binding wins). -/
abbrev Store : Type := List (String × List Nat)

/-- Look an object up by path. -/
def storeGet : Store → String → Option (List Nat)
  | [], _ => none
  | (q, v) :: rest, p => if p = q then some v else storeGet rest p

/-- Remove every binding for `p`. -/
def storeDel (st : Store) (p : String) : Store :=
  st.filter (fun e => e.1 != p)

/-- Create or overwrite the object at `p`. -/
def storeSet (st : Store) (p : String) (v : List Nat) : Store :=
  (p, v) :: storeDel st p

/-- Log events emitted by the modelled functions, mirroring the
`logger` calls of the source that the claims refer to. -/
inductive LogEvent
  | creatingBackupCopy (p : String)
  | backupCopyCreated (p : String)
  | backupCopyFailed (p : String)
  | uploadingTemp (p : String)
  | uploadedTemp (p : String)
  | uploadFailed
  | verifying
  | verifyOk
  | verifyMismatch
  | verifyError
  | removingOld
  | deletingFile (p : String)
  | fileDeleted
  | deleteFailed (p : String)
  | renamingFile (src dst : String)
  | fileRenamed
  | renameFailed
  | rollbackStarted
  | rbDeletingTemp (p : String)
  | rbRestoringName (src dst : String)
  | rbRestoringFromBackup (b f : String)
  | rbRestored
  | rbRestoreFailed
  | backupStillAvailableAt (p : String)
  | rollbackCompleted
  | rollbackErrors
  | errorCaught
deriving DecidableEq, Repr

/-- Remote API calls, recorded with the success of the call, so that
theorems can speak about which operations a run attempted. -/
inductive RemoteOp
  | getMetadata (p : String)
  | download (p : String)
  | upload (p : String) (ok : Bool)
  | move (src dst : String) (ok : Bool)
  | delete (p : String) (ok : Bool)
deriving DecidableEq, Repr

/-- The world a run acts on: the remote store plus the append-only log
and the trace of remote calls. -/
structure World where
  store : Store
  log : List LogEvent
  ops : List RemoteOp
deriving DecidableEq, Repr

/-- Append a log event. -/
def addLog (w : World) (e : LogEvent) : World :=
  { w with log := w.log ++ [e] }

/-- Record a remote call. -/
def addOp (w : World) (op : RemoteOp) : World :=
  { w with ops := w.ops ++ [op] }

/-- Embedding of the `state` dictionary of `backup_keepass`. -/
structure RunState where
  temp_file_created : Bool := false
  temp_path : Option String := none
  file_renamed : Bool := false
  old_path : Option String := none
  new_path : Option String := none
  old_file_deleted : Bool := false
  backup_path : Option String := none
  dropbox_file_path : Option String := none
deriving DecidableEq, Repr

/-- Python truthiness of an optional string (`if temp_path:`):
`None` and the empty string are falsy. -/
def optTruthy : Option String → Bool
  | none => false
  | some s => !s.isEmpty

/-- Outcomes of the remote calls a single run makes, fixed up front:
each field decides whether the corresponding call (at its call site in
the source) succeeds, fails, or — where the source lets the exception
propagate — raises.  `verifyCorrupt` optionally substitutes the bytes
the verification download returns, modelling a corrupted transfer. -/
structure Oracle where
  statOk : Bool := true
  checkFinalRaises : Bool := false
  snapshotOk : Bool := true
  uploadTempOk : Bool := true
  verifyDownloadOk : Bool := true
  verifyCorrupt : Option (List Nat) := none
  deleteOldOk : Bool := true
  renameOk : Bool := true
  rbDeleteTempOk : Bool := true
  rbRenameOk : Bool := true
  rbCheckRaises : Bool := false
  rbRestoreOk : Bool := true
  now : Timestamp := ⟨2024, 1, 1, 0, 0, 0⟩
deriving DecidableEq, Repr

/-- Exceptions that can escape `backup_keepass`. -/
inductive PyErr
  | apiError
  | unboundLocalDbx
deriving DecidableEq, Repr

/-- What a call to `backup_keepass` does: return `(success, message)`
or raise. -/
inductive BkRes
  | returned (ok : Bool) (msg : String)
  | raised (e : PyErr)
deriving DecidableEq, Repr

/-! ### Embeddings of the remote-call helper functions -/

/-- Embedding of `check_file_exists`: `files_get_metadata`, translating
a not-found error into `False`; any other error is re-raised (`none`). -/
def check_file_exists (raises : Bool) (w : World) (p : String) : Option Bool × World :=
  let w := addOp w (.getMetadata p)
  if raises then (none, w) else (some (storeGet w.store p).isSome, w)

/-- Embedding of `create_backup_copy`: download the original, re-upload
it under the backup path; every failure is caught, logged as a warning
and reported as `false`. -/
def create_backup_copy (ok : Bool) (w : World) (src dst : String) : Bool × World :=
  let w := addOp (addLog w (.creatingBackupCopy dst)) (.download src)
  match storeGet w.store src with
  | none => (false, addLog w (.backupCopyFailed dst))
  | some data =>
      if ok then
        (true, addLog (addOp { w with store := storeSet w.store dst data } (.upload dst true))
                 (.backupCopyCreated dst))
      else
        (false, addLog (addOp w (.upload dst false)) (.backupCopyFailed dst))

/-- Embedding of `upload_file_temp`: upload the local bytes to the
temporary path with overwrite; failures are caught and reported. -/
def upload_file_temp (ok : Bool) (w : World) (content : List Nat) (tempPath : String) :
    Bool × World :=
  let w := addLog w (.uploadingTemp tempPath)
  if ok then
    (true, addLog (addOp { w with store := storeSet w.store tempPath content }
             (.upload tempPath true)) (.uploadedTemp tempPath))
  else
    (false, addLog (addOp w (.upload tempPath false)) .uploadFailed)

/-- The checksum comparison of `verify_upload`: equality of the two
hex digests. -/
def checksumsMatch (a b : List Nat) : Bool :=
  calculate_checksum a == calculate_checksum b

/-- Embedding of `verify_upload`: download the remote object to a local
temporary file and compare SHA-256 checksums; any exception (including a
failed download) yields `false`.  `corrupt` substitutes the downloaded
bytes when the transfer is corrupted. -/
def verify_upload (downloadOk : Bool) (corrupt : Option (List Nat)) (w : World)
    (p : String) (localContent : List Nat) : Bool × World :=
  let w := addOp (addLog w .verifying) (.download p)
  if downloadOk then
    match storeGet w.store p with
    | none => (false, addLog w .verifyError)
    | some stored =>
        let bytes := corrupt.getD stored
        if checksumsMatch localContent bytes then
          (true, addLog w .verifyOk)
        else
          (false, addLog w .verifyMismatch)
  else (false, addLog w .verifyError)

/-- Embedding of `rename_file`: `files_move_v2`, which fails when the
source is absent or the destination already exists (no autorename);
failures are caught and reported. -/
def rename_file (ok : Bool) (w : World) (src dst : String) : Bool × World :=
  let w := addLog w (.renamingFile src dst)
  match storeGet w.store src with
  | some data =>
      if ok && (storeGet w.store dst).isNone then
        (true, addLog (addOp { w with store := storeSet (storeDel w.store src) dst data }
                 (.move src dst true)) .fileRenamed)
      else
        (false, addLog (addOp w (.move src dst false)) .renameFailed)
  | none => (false, addLog (addOp w (.move src dst false)) .renameFailed)

/-- Embedding of `delete_file`: `files_delete_v2`, which fails when the
object is absent; failures are caught, logged as warnings, reported. -/
def delete_file (ok : Bool) (w : World) (p : String) : Bool × World :=
  let w := addLog w (.deletingFile p)
  if ok && (storeGet w.store p).isSome then
    (true, addLog (addOp { w with store := storeDel w.store p } (.delete p true)) .fileDeleted)
  else
    (false, addLog (addOp w (.delete p false)) (.deleteFailed p))

/-! ### The rollback engine and the orchestrator -/

/-- Embedding of `rollback`.  The result is `none` when the call raises
(the existence check of the recorded backup path re-raises non-not-found
store errors and `rollback` does not catch them), otherwise
`some success`.  The returned `World` reflects every change made before
a raise. -/
def rollback (o : Oracle) (w : World) (s : RunState) : Option Bool × World :=
  let w := addLog w .rollbackStarted
  -- delete the temporary file if it was created
  let step1 : Bool × World :=
    if s.temp_file_created && optTruthy s.temp_path then
      let tp := s.temp_path.getD ""
      delete_file o.rbDeleteTempOk (addLog w (.rbDeletingTemp tp)) tp
    else (true, w)
  let success := step1.1
  let w := step1.2
  -- restore the original file name if it was renamed
  let step2 : Bool × World :=
    if s.file_renamed && optTruthy s.old_path && optTruthy s.new_path then
      let op := s.old_path.getD ""
      let np := s.new_path.getD ""
      rename_file o.rbRenameOk (addLog w (.rbRestoringName np op)) np op
    else (true, w)
  let success := success && step2.1
  let w := step2.2
  -- if the old file was deleted and the rename did not happen, restore from the backup copy
  if s.old_file_deleted && !s.file_renamed && optTruthy s.backup_path
     && optTruthy s.dropbox_file_path then
    let bp := s.backup_path.getD ""
    let fp := s.dropbox_file_path.getD ""
    match check_file_exists o.rbCheckRaises w bp with
    | (none, w) => (none, w)
    | (some present, w) =>
        if present then
          let w := addOp (addLog w (.rbRestoringFromBackup bp fp)) (.download bp)
          match storeGet w.store bp, o.rbRestoreOk with
          | some data, true =>
              let w := addLog (addOp { w with store := storeSet w.store fp data }
                        (.upload fp true)) .rbRestored
              (some success, addLog w (if success then .rollbackCompleted else .rollbackErrors))
          | _, _ =>
              let w := addLog (addLog (addOp w (.upload fp false)) .rbRestoreFailed)
                        (.backupStillAvailableAt bp)
              (some false, addLog w .rollbackErrors)
        else
          (some success, addLog w (if success then .rollbackCompleted else .rollbackErrors))
  else
    (some success, addLog w (if success then .rollbackCompleted else .rollbackErrors))

/-- One `except` handler of `backup_keepass`: log the error, run
`rollback(dbx, state)` and return `(False, msg)`.  When the exception
was raised before `dbx` was assigned, evaluating `rollback(dbx, state)`
itself raises `UnboundLocalError`; when `rollback` raises, the raise
propagates out of the handler. -/
def exceptHandler (dbxAssigned : Bool) (o : Oracle) (w : World) (s : RunState)
    (msg : String) : BkRes × World :=
  let w := addLog w .errorCaught
  if dbxAssigned then
    match rollback o w s with
    | (some _, w) => (.returned false msg, w)
    | (none, w) => (.raised .apiError, w)
  else
    (.raised .unboundLocalDbx, w)

/-- Everything a run of `backup_keepass` produces: its result, the
final world, the final `state` dictionary, and the sequence of values
the `state` dictionary takes during the run (one entry per block of
consecutive assignments, i.e. per point between remote calls). -/
structure BackupResult where
  res : BkRes
  world : World
  state : RunState
  trace : List RunState
deriving DecidableEq, Repr

/-- Embedding of `backup_keepass`.  `sourceExists` and `sourceIsFile`
model the local-filesystem checks; `o.statOk` models whether reading the
source file's size (after the existence check) succeeds; `store0` is the
remote store's pre-run content. -/
def backup_keepass (sourceExists sourceIsFile : Bool) (o : Oracle) (store0 : Store)
    (source_file : String) (content : List Nat) (dropbox_folder : String) : BackupResult :=
  let w0 : World := ⟨store0, [], []⟩
  let s0 : RunState := {}
  if !sourceExists then
    ⟨.returned false ("Source file not found: " ++ source_file), w0, s0, [s0]⟩
  else if !sourceIsFile then
    ⟨.returned false ("Path is not a file: " ++ source_file), w0, s0, [s0]⟩
  else if !o.statOk then
    -- `source_path.stat()` raised before `dbx` was assigned; the generic
    -- handler runs and evaluates `rollback(dbx, state)` with `dbx` unbound
    let hr := exceptHandler false o w0 s0 "Unexpected error"
    ⟨hr.1, hr.2, s0, [s0]⟩
  else
    let folderN := rstripSlash dropbox_folder
    let filename := basename source_file
    let fpath := folderN ++ "/" ++ filename
    let tpath := fpath ++ ".tmp"
    let s1 := { s0 with dropbox_file_path := some fpath }
    match check_file_exists o.checkFinalRaises w0 fpath with
    | (none, w) =>
        let hr := exceptHandler true o w s1 "Dropbox API error"
        ⟨hr.1, hr.2, s1, [s0, s1]⟩
    | (some file_exists, w) =>
        let after3 : RunState × World :=
          if file_exists then
            let bname := generate_backup_filename o.now filename
            let bpath := folderN ++ "/" ++ bname
            -- the backup path is recorded before the copy is attempted,
            -- and the copy's result is ignored (non-critical)
            let s2 := { s1 with backup_path := some bpath }
            (s2, (create_backup_copy o.snapshotOk w fpath bpath).2)
          else (s1, w)
        let s2 := after3.1
        let w := after3.2
        let up := upload_file_temp o.uploadTempOk w content tpath
        let w := up.2
        if !up.1 then
          ⟨.returned false "Failed to upload file to Dropbox", w, s2, [s0, s1, s2]⟩
        else
          let s3 := { s2 with temp_file_created := true, temp_path := some tpath }
          let ver := verify_upload o.verifyDownloadOk o.verifyCorrupt w tpath content
          let w := ver.2
          if !ver.1 then
            match rollback o w s3 with
            | (some _, w) =>
                ⟨.returned false "File integrity verification failed", w, s3, [s0, s1, s2, s3]⟩
            | (none, w) =>
                let hr := exceptHandler true o w s3 "Dropbox API error"
                ⟨hr.1, hr.2, s3, [s0, s1, s2, s3]⟩
          else
            let after7 : RunState × World :=
              if file_exists then
                let d := delete_file o.deleteOldOk (addLog w .removingOld) fpath
                (if d.1 then { s3 with old_file_deleted := true } else s3, d.2)
              else (s3, w)
            let s4 := after7.1
            let w := after7.2
            let rn := rename_file o.renameOk w tpath fpath
            let w := rn.2
            if !rn.1 then
              match rollback o w s4 with
              | (some _, w) =>
                  ⟨.returned false "Failed to rename temporary file to final name", w, s4,
                   [s0, s1, s2, s3, s4]⟩
              | (none, w) =>
                  let hr := exceptHandler true o w s4 "Dropbox API error"
                  ⟨hr.1, hr.2, s4, [s0, s1, s2, s3, s4]⟩
            else
              let s5 := { s4 with file_renamed := true, old_path := some tpath,
                                  new_path := some fpath, temp_file_created := false,
                                  old_file_deleted := false }
              ⟨.returned true ("Successfully backed up " ++ source_file ++ " to " ++ fpath),
               w, s5, [s0, s1, s2, s3, s4, s5]⟩

/-- The final Dropbox path a run targets. -/
def finalPath (folder file : String) : String :=
  rstripSlash folder ++ "/" ++ basename file

/-- The temporary Dropbox path a run uploads to. -/
def tempPath (folder file : String) : String :=
  finalPath folder file ++ ".tmp"

/-- The timestamped snapshot path a run writes the pre-existing object
to. -/
def backupPath (folder file : String) (now : Timestamp) : String :=
  rstripSlash folder ++ "/" ++ generate_backup_filename now (basename file)

/-- An operation that failed at the store (used to characterise the
rollback success flag). -/
def opFailed : RemoteOp → Bool
  | .upload _ ok => !ok
  | .move _ _ ok => !ok
  | .delete _ ok => !ok
  | _ => false

/-- Recognises the "Backup copy is still available at: ..." log entry
(the manual-recovery pointer rollback emits when a restore fails). -/
def isStillAvailableLog : LogEvent → Bool
  | .backupStillAvailableAt _ => true
  | _ => false

/-- Recognises the "Restoring original file from backup" log entry. -/
def isRestoreLog : LogEvent → Bool
  | .rbRestoringFromBackup _ _ => true
  | _ => false

/-- The RunState invariant of the specification's data model. -/
def stateInv (s : RunState) : Prop :=
  (s.file_renamed = true → s.temp_file_created = false ∧ s.old_file_deleted = false) ∧
  (s.old_file_deleted = true → s.file_renamed = false) ∧
  ¬((s.temp_file_created = true ∧ s.file_renamed = false) ∧ s.file_renamed = true)

/-! ## Lemmas about the store -/

theorem storeGet_set_self (st : Store) (p : String) (v : List Nat) :
    storeGet (storeSet st p v) p = some v := by
  simp [storeSet, storeGet]

theorem storeGet_del (st : Store) (p q : String) :
    storeGet (storeDel st p) q = if q = p then none else storeGet st q := by
  induction st with
  | nil => simp [storeDel, storeGet]
  | cons e rest ih =>
      obtain ⟨r, v⟩ := e
      simp only [storeDel, List.filter_cons] at ih ⊢
      by_cases hrp : r = p <;> by_cases hqr : q = r <;>
        simp_all [storeGet, bne_iff_ne]

theorem storeGet_del_self (st : Store) (p : String) :
    storeGet (storeDel st p) p = none := by
  simp [storeGet_del]

theorem storeGet_del_ne (st : Store) (p q : String) (h : q ≠ p) :
    storeGet (storeDel st p) q = storeGet st q := by
  simp [storeGet_del, h]

theorem storeGet_set_ne (st : Store) (p q : String) (v : List Nat) (h : q ≠ p) :
    storeGet (storeSet st p v) q = storeGet st q := by
  simp [storeSet, storeGet, h, storeGet_del_ne st p q h]

/-! ## Lemmas about strings, paths and filenames -/

theorem string_length_mk (l : List Char) : (String.mk l).length = l.length := rfl

theorem string_data_append (a b : String) : (a ++ b).data = a.data ++ b.data := rfl

theorem string_length_append (a b : String) : (a ++ b).length = a.length + b.length := by
  cases a with
  | mk da =>
      cases b with
      | mk db =>
          show (String.mk (da ++ db)).length = (String.mk da).length + (String.mk db).length
          simp [string_length_mk]

theorem string_ne_of_length_ne {a b : String} (h : a.length ≠ b.length) : a ≠ b := by
  intro hab; exact h (by rw [hab])

theorem pad2_length (n : Nat) : (pad2 n).length = 2 := rfl

theorem pad4_length (n : Nat) : (pad4 n).length = 4 := rfl

theorem formatTimestamp_length (t : Timestamp) : (formatTimestamp t).length = 19 := by
  simp only [formatTimestamp, string_length_append, pad2_length, pad4_length]
  decide

theorem string_mk_append_mk (a b : List Char) :
    String.mk a ++ String.mk b = String.mk (a ++ b) := rfl

theorem string_append_empty (s : String) : s ++ "" = s := by
  cases s with
  | mk data =>
      show String.mk (data ++ []) = String.mk data
      simp

theorem stem_append_suffix (name : String) : stemOf name ++ suffixOf name = name := by
  unfold stemOf suffixOf splitExt
  cases h : rfindDot name.data with
  | none => simp [h, string_append_empty]
  | some i =>
      by_cases hc : 0 < i ∧ i < name.data.length - 1
      · simp only [h, hc, if_pos]
        cases name with
        | mk data =>
            show String.mk (List.take i data) ++ String.mk (List.drop i data) = String.mk data
            rw [string_mk_append_mk, List.take_append_drop]
      · have hc' : ¬(0 < i ∧ i < name.length - 1) := hc
        simp [h, hc', string_append_empty]

theorem name_length_eq (name : String) :
    (stemOf name).length + (suffixOf name).length = name.length := by
  have h := stem_append_suffix name
  calc (stemOf name).length + (suffixOf name).length
      = (stemOf name ++ suffixOf name).length := (string_length_append _ _).symm
    _ = name.length := by rw [h]

theorem generate_backup_filename_length (now : Timestamp) (name : String) :
    (generate_backup_filename now name).length = name.length + 20 := by
  have h1 := name_length_eq name
  have h2 : ("_" : String).length = 1 := rfl
  simp only [generate_backup_filename, string_length_append, formatTimestamp_length, h2]
  omega

theorem finalPath_length (folder file : String) :
    (finalPath folder file).length = (rstripSlash folder).length + 1 + (basename file).length := by
  have h : ("/" : String).length = 1 := rfl
  simp only [finalPath, string_length_append, h]

theorem tempPath_length (folder file : String) :
    (tempPath folder file).length = (finalPath folder file).length + 4 := by
  have h : (".tmp" : String).length = 4 := rfl
  simp only [tempPath, string_length_append, h]

theorem backupPath_length (folder file : String) (now : Timestamp) :
    (backupPath folder file now).length = (finalPath folder file).length + 20 := by
  have h : ("/" : String).length = 1 := rfl
  simp only [backupPath, finalPath, string_length_append, generate_backup_filename_length, h]
  omega

theorem tempPath_ne_finalPath (folder file : String) :
    tempPath folder file ≠ finalPath folder file := by
  apply string_ne_of_length_ne
  rw [tempPath_length]
  omega

theorem backupPath_ne_finalPath (folder file : String) (now : Timestamp) :
    backupPath folder file now ≠ finalPath folder file := by
  apply string_ne_of_length_ne
  rw [backupPath_length]
  omega

theorem backupPath_ne_tempPath (folder file : String) (now : Timestamp) :
    backupPath folder file now ≠ tempPath folder file := by
  apply string_ne_of_length_ne
  rw [backupPath_length, tempPath_length]
  omega

theorem finalPath_ne_empty (folder file : String) : finalPath folder file ≠ "" := by
  apply string_ne_of_length_ne
  rw [finalPath_length]
  have h : ("" : String).length = 0 := rfl
  omega

theorem tempPath_ne_empty (folder file : String) : tempPath folder file ≠ "" := by
  apply string_ne_of_length_ne
  rw [tempPath_length, finalPath_length]
  have h : ("" : String).length = 0 := rfl
  omega

theorem backupPath_ne_empty (folder file : String) (now : Timestamp) :
    backupPath folder file now ≠ "" := by
  apply string_ne_of_length_ne
  rw [backupPath_length, finalPath_length]
  have h : ("" : String).length = 0 := rfl
  omega

theorem optTruthy_of_ne_empty {p : String} (h : p ≠ "") : optTruthy (some p) = true := by
  simp only [optTruthy]
  cases hE : p.isEmpty with
  | false => simp
  | true => exact absurd ((String.isEmpty_iff p).mp hE) h

/-! ## Lemmas about chunking -/

theorem chunksGo_flatten {α : Type} (n : Nat) (hn : 0 < n) :
    ∀ (fuel : Nat) (l : List α), l.length ≤ fuel → (chunksGo n fuel l).flatten = l := by
  intro fuel
  induction fuel with
  | zero =>
      intro l hl
      cases l with
      | nil => simp [chunksGo]
      | cons a as => simp at hl
  | succ fuel ih =>
      intro l hl
      cases l with
      | nil => simp [chunksGo]
      | cons a as =>
          simp only [chunksGo, List.flatten_cons]
          have hd : ((a :: as).drop n).length ≤ fuel := by
            simp only [List.length_drop, List.length_cons]
            simp only [List.length_cons] at hl
            omega
          rw [ih _ hd]
          exact List.take_append_drop n (a :: as)

theorem chunksOf_flatten {α : Type} (n : Nat) (hn : 0 < n) (l : List α) :
    (chunksOf n l).flatten = l :=
  chunksGo_flatten n hn l.length l le_rfl

theorem chunksGo_sizes {α : Type} (n : Nat) (hn : 0 < n) :
    ∀ (fuel : Nat) (l : List α) (c : List α), c ∈ chunksGo n fuel l →
      c.length ≤ n ∧ c ≠ [] := by
  intro fuel
  induction fuel with
  | zero =>
      intro l c hc
      cases l <;> simp [chunksGo] at hc
  | succ fuel ih =>
      intro l c hc
      cases l with
      | nil => simp [chunksGo] at hc
      | cons a as =>
          simp only [chunksGo, List.mem_cons] at hc
          rcases hc with hc | hc
          · subst hc
            refine ⟨by simpa using List.length_take_le n (a :: as), ?_⟩
            obtain ⟨m, rfl⟩ := Nat.exists_eq_succ_of_ne_zero (Nat.pos_iff_ne_zero.mp hn)
            simp [List.take_succ_cons]
          · exact ih _ c hc

theorem chunksOf_sizes {α : Type} (n : Nat) (hn : 0 < n) (l : List α) (c : List α)
    (hc : c ∈ chunksOf n l) : c.length ≤ n ∧ c ≠ [] :=
  chunksGo_sizes n hn l.length l c hc

theorem foldl_append_eq_flatten {α : Type} :
    ∀ (l : List (List α)) (acc : List α), l.foldl (fun a c => a ++ c) acc = acc ++ l.flatten := by
  intro l
  induction l with
  | nil => simp
  | cons c cs ih => intro acc; simp [List.foldl, ih]

theorem calculate_checksum_eq_sha256hex (content : List Nat) :
    calculate_checksum content = sha256hex content := by
  unfold calculate_checksum
  rw [foldl_append_eq_flatten, chunksOf_flatten 4096 (by omega)]
  rfl

theorem sha256hex_length (msg : List Nat) : (sha256hex msg).length = 64 := by
  simp [sha256hex, string_length_mk, hexWord]

theorem checksumsMatch_self (c : List Nat) : checksumsMatch c c = true := by
  simp [checksumsMatch]

theorem checksumsMatch_false_of_ne {a b : List Nat}
    (h : calculate_checksum a ≠ calculate_checksum b) : checksumsMatch a b = false := by
  simp [checksumsMatch, h]

/-! ## Claim theorems -/

/-- C1 (corrected): when a prior final object exists and the step-7
delete of the final path fails, `backup_keepass` does **not** abort with
a delete error: it proceeds to attempt the promotion anyway.  The
promotion fails (the destination is still occupied), rollback is then
triggered, the run aborts with the rename-failure error, and the old
object is still at the final path. -/
theorem C1_delete_failure_still_attempts_promotion (store : Store) (o : Oracle)
    (file content folder : _) (old : List Nat)
    (hstat : o.statOk = true) (hchk : o.checkFinalRaises = false)
    (hfe : storeGet store (finalPath folder file) = some old)
    (hup : o.uploadTempOk = true) (hvd : o.verifyDownloadOk = true)
    (hvc : o.verifyCorrupt = none) (hdel : o.deleteOldOk = false) :
    (backup_keepass true true o store file content folder).res =
      .returned false "Failed to rename temporary file to final name" ∧
    RemoteOp.move (tempPath folder file) (finalPath folder file) false ∈
      (backup_keepass true true o store file content folder).world.ops ∧
    LogEvent.rollbackStarted ∈ (backup_keepass true true o store file content folder).world.log ∧
    storeGet (backup_keepass true true o store file content folder).world.store
      (finalPath folder file) = some old := by
  have htf := tempPath_ne_finalPath folder file
  have hft := Ne.symm htf
  have hbf := backupPath_ne_finalPath folder file o.now
  have hbt := backupPath_ne_tempPath folder file o.now
  have hfb := Ne.symm hbf
  have htb := Ne.symm hbt
  have hot := optTruthy_of_ne_empty (tempPath_ne_empty folder file)
  simp only [finalPath, tempPath, backupPath] at htf hft hbf hbt hfb htb hot hfe ⊢
  cases hsn : o.snapshotOk <;>
    simp only [backup_keepass, check_file_exists, create_backup_copy, upload_file_temp,
               addLog, addOp, hstat, hchk, hup, hsn, hfe, Bool.not_true, Bool.not_false,
               if_true, if_false, Bool.false_eq_true, Bool.true_eq_false, ite_false, ite_true,
               Option.isSome_some, storeGet_set_self, storeGet_set_ne, storeGet_del_ne,
               htf, hft, hbf, hbt, hfb, htb] <;>
    simp only [verify_upload, addLog, addOp, hvd, hvc, storeGet_set_self, Option.getD_some,
               checksumsMatch_self, if_true, ite_true, Option.isSome_some, Bool.not_true,
               Bool.false_eq_true, if_false, ite_false, storeGet_set_ne, storeGet_del_ne,
               htf, hft, hbf, hbt, hfb, htb] <;>
    simp only [delete_file, rename_file, addLog, addOp, hdel, Bool.false_and, if_false,
               ite_false, Bool.not_false, storeGet_set_self, Option.isSome_some,
               storeGet_set_ne, storeGet_del_ne, htf, hft, hbf, hbt, hfb, htb, hfe,
               Bool.true_and, Option.isSome_none, Bool.and_false, if_true, ite_true,
               Bool.not_true, Bool.false_eq_true, Bool.true_eq_false] <;>
    cases hrdt : o.rbDeleteTempOk <;>
    simp [rollback, delete_file, addLog, addOp, hot, hrdt, checksumsMatch_self,
          storeGet_set_self, storeGet_set_ne, storeGet_del_ne, htf, hft, hbf, hbt, hfb,
          htb, hfe]

/-- C1 (corrected): concrete run refuting the claim as stated — with a
prior final object present and the step-7 delete failing, the promotion
(the `files_move_v2` call from the temporary to the final path) **is**
attempted, and the run aborts with the rename-failure message, not a
delete-failure one. -/
theorem C1_promotion_attempted_counterexample :
    RemoteOp.delete "/Backups/keepass.kdbx" false ∈
      (backup_keepass true true { snapshotOk := false, deleteOldOk := false }
        [("/Backups/keepass.kdbx", [9])] "keepass.kdbx" [1, 2] "/Backups").world.ops ∧
    RemoteOp.move "/Backups/keepass.kdbx.tmp" "/Backups/keepass.kdbx" false ∈
      (backup_keepass true true { snapshotOk := false, deleteOldOk := false }
        [("/Backups/keepass.kdbx", [9])] "keepass.kdbx" [1, 2] "/Backups").world.ops ∧
    (backup_keepass true true { snapshotOk := false, deleteOldOk := false }
      [("/Backups/keepass.kdbx", [9])] "keepass.kdbx" [1, 2] "/Backups").res =
      .returned false "Failed to rename temporary file to final name" := by
  decide

/-- C2 (corrected): the claim that `rollback` never raises is false —
when the existence check of the recorded backup path raises a store
error (a non-not-found `ApiError`), `check_file_exists` re-raises it and
`rollback` does not catch it, so the exception propagates to
`rollback`'s caller.  Concrete counterexample: a state with
`old_file_deleted` set, no rename, and recorded backup and final paths. -/
theorem C2_rollback_raises_counterexample :
    (rollback { rbCheckRaises := true } ⟨[("/Backups/b.kdbx", [1])], [], []⟩
      { old_file_deleted := true, backup_path := some "/Backups/b.kdbx",
        dropbox_file_path := some "/Backups/k.kdbx" }).1 = none := by
  decide

/-- C2 (amended): provided the existence check of the backup path does
not raise, `rollback` always returns (never raises), and it returns
`false` exactly when some compensating store action it attempted failed
(the failed operations being the recorded remote calls with a `false`
success flag). -/
theorem C2_rollback_returns_and_flags_failures (o : Oracle) (w : World) (s : RunState)
    (h : o.rbCheckRaises = false) :
    (rollback o w s).1.isSome = true ∧
    (rollback o w s).1 =
      some (!((rollback o w s).2.ops.drop w.ops.length).any opFailed) := by
  rcases s with ⟨tfc, tp, fr, opth, npth, ofd, bp, fpp⟩
  cases tfc <;> cases fr <;> cases ofd <;>
    cases hrdt : o.rbDeleteTempOk <;> cases hrrn : o.rbRenameOk <;> cases hrrs : o.rbRestoreOk <;>
    simp only [rollback, delete_file, rename_file, check_file_exists, addLog, addOp, h, hrdt,
               hrrn, hrrs, Bool.not_true, Bool.not_false, if_true, if_false,
               Bool.false_eq_true, Bool.true_eq_false, ite_false, ite_true, Bool.false_and,
               Bool.true_and, Bool.and_false, Bool.and_true] <;>
    repeat' split
  all_goals (try simp_all [opFailed, List.drop_left, List.drop_length])

/-- Closed witness for C2's amended theorem at a concrete input. -/
theorem C2_rollback_returns_and_flags_failures_witness :
    (rollback { rbDeleteTempOk := false } ⟨[("/Backups/k.kdbx.tmp", [1])], [], []⟩
      { temp_file_created := true, temp_path := some "/Backups/k.kdbx.tmp" }).1.isSome = true ∧
    (rollback { rbDeleteTempOk := false } ⟨[("/Backups/k.kdbx.tmp", [1])], [], []⟩
      { temp_file_created := true, temp_path := some "/Backups/k.kdbx.tmp" }).1 =
      some (!(((rollback { rbDeleteTempOk := false } ⟨[("/Backups/k.kdbx.tmp", [1])], [], []⟩
        { temp_file_created := true, temp_path := some "/Backups/k.kdbx.tmp" }).2.ops.drop
          (⟨[("/Backups/k.kdbx.tmp", [1])], [], []⟩ : World).ops.length).any opFailed)) :=
  C2_rollback_returns_and_flags_failures { rbDeleteTempOk := false }
    ⟨[("/Backups/k.kdbx.tmp", [1])], [], []⟩
    { temp_file_created := true, temp_path := some "/Backups/k.kdbx.tmp" } rfl

/-- C4 (corrected): the claim fails when snapshot creation failed at
step 3.  Concrete run: a prior object `[9]` sits at the final path, the
snapshot copy fails (non-fatally), step-7 delete succeeds, step-8
promote fails — afterwards the store is completely empty (the old
object's content survives nowhere) and no "still available at" log
entry names any snapshot path: the store is left with no record of the
lost object. -/
theorem C4_lost_object_counterexample :
    RemoteOp.delete "/Backups/keepass.kdbx" true ∈
      (backup_keepass true true { snapshotOk := false, renameOk := false }
        [("/Backups/keepass.kdbx", [9])] "keepass.kdbx" [1, 2] "/Backups").world.ops ∧
    (backup_keepass true true { snapshotOk := false, renameOk := false }
      [("/Backups/keepass.kdbx", [9])] "keepass.kdbx" [1, 2] "/Backups").res =
      .returned false "Failed to rename temporary file to final name" ∧
    (backup_keepass true true { snapshotOk := false, renameOk := false }
      [("/Backups/keepass.kdbx", [9])] "keepass.kdbx" [1, 2] "/Backups").world.store = [] ∧
    ((backup_keepass true true { snapshotOk := false, renameOk := false }
      [("/Backups/keepass.kdbx", [9])] "keepass.kdbx" [1, 2] "/Backups").world.log.all
        (fun e => !isStillAvailableLog e)) = true := by
  decide

/-- C4 (amended): when the step-3 snapshot succeeded, a run that fails
at step 8 after a successful step-7 delete ends with rollback leaving
either the final path restored from the snapshot or an explicit log
entry naming the snapshot path for manual recovery. -/
theorem C4_promote_failure_recovery (store : Store) (o : Oracle)
    (file content folder : _) (old : List Nat)
    (hstat : o.statOk = true) (hchk : o.checkFinalRaises = false)
    (hfe : storeGet store (finalPath folder file) = some old)
    (hsn : o.snapshotOk = true)
    (hup : o.uploadTempOk = true) (hvd : o.verifyDownloadOk = true)
    (hvc : o.verifyCorrupt = none) (hdel : o.deleteOldOk = true)
    (hrn : o.renameOk = false) (hrcr : o.rbCheckRaises = false) :
    (backup_keepass true true o store file content folder).res =
      .returned false "Failed to rename temporary file to final name" ∧
    (storeGet (backup_keepass true true o store file content folder).world.store
        (finalPath folder file) = some old ∨
      LogEvent.backupStillAvailableAt (backupPath folder file o.now) ∈
        (backup_keepass true true o store file content folder).world.log) := by
  have htf := tempPath_ne_finalPath folder file
  have hft := Ne.symm htf
  have hbf := backupPath_ne_finalPath folder file o.now
  have hbt := backupPath_ne_tempPath folder file o.now
  have hfb := Ne.symm hbf
  have htb := Ne.symm hbt
  have hot := optTruthy_of_ne_empty (tempPath_ne_empty folder file)
  have hob := optTruthy_of_ne_empty (backupPath_ne_empty folder file o.now)
  have hof := optTruthy_of_ne_empty (finalPath_ne_empty folder file)
  simp only [finalPath, tempPath, backupPath] at htf hft hbf hbt hfb htb hot hob hof hfe ⊢
  simp only [backup_keepass, check_file_exists, create_backup_copy, upload_file_temp,
             addLog, addOp, hstat, hchk, hup, hsn, hfe, Bool.not_true, Bool.not_false,
             if_true, if_false, Bool.false_eq_true, Bool.true_eq_false, ite_false, ite_true,
             Option.isSome_some, storeGet_set_self, storeGet_set_ne, storeGet_del_ne,
             htf, hft, hbf, hbt, hfb, htb]
  simp only [verify_upload, addLog, addOp, hvd, hvc, storeGet_set_self, Option.getD_some,
             checksumsMatch_self, if_true, ite_true, Option.isSome_some, Bool.not_true,
             Bool.false_eq_true, if_false, ite_false, storeGet_set_ne, storeGet_del_ne,
             htf, hft, hbf, hbt, hfb, htb]
  simp only [delete_file, rename_file, addLog, addOp, hdel, hrn, Bool.false_and, if_false,
             ite_false, Bool.not_false, storeGet_set_self, Option.isSome_some,
             storeGet_set_ne, storeGet_del_ne, storeGet_del_self, htf, hft, hbf, hbt, hfb,
             htb, hfe, Bool.true_and, Option.isSome_none, Bool.and_false, if_true, ite_true,
             Bool.not_true, Bool.false_eq_true, Bool.true_eq_false]
  cases hrdt : o.rbDeleteTempOk <;> cases hrrs : o.rbRestoreOk <;>
    simp [rollback, delete_file, check_file_exists, addLog, addOp, hot, hob, hof, hrdt, hrrs,
          hrcr, checksumsMatch_self, storeGet_set_self, storeGet_set_ne, storeGet_del_ne,
          storeGet_del_self, htf, hft, hbf, hbt, hfb, htb, hfe]

/-- Closed witness for C4's amended theorem at a concrete input. -/
theorem C4_promote_failure_recovery_witness :
    (backup_keepass true true { renameOk := false }
      [("/Backups/keepass.kdbx", [9])] "keepass.kdbx" [1, 2] "/Backups").res =
      .returned false "Failed to rename temporary file to final name" ∧
    (storeGet (backup_keepass true true { renameOk := false }
        [("/Backups/keepass.kdbx", [9])] "keepass.kdbx" [1, 2] "/Backups").world.store
        (finalPath "/Backups" "keepass.kdbx") = some [9] ∨
      LogEvent.backupStillAvailableAt
          (backupPath "/Backups" "keepass.kdbx" ({} : Oracle).now) ∈
        (backup_keepass true true { renameOk := false }
          [("/Backups/keepass.kdbx", [9])] "keepass.kdbx" [1, 2] "/Backups").world.log) :=
  C4_promote_failure_recovery [("/Backups/keepass.kdbx", [9])] { renameOk := false }
    "keepass.kdbx" [1, 2] "/Backups" [9] rfl rfl (by decide) rfl rfl rfl rfl rfl rfl rfl

/-- C6 (corrected): rollback's deletion of the temporary object is
itself best-effort — when it fails, the temporary object is **not**
absent post-rollback, contradicting the claim.  Concrete run: empty
prior store, corrupted verification download, rollback's delete fails;
the run returns the integrity failure but the temporary object is still
stored. -/
theorem C6_temp_remains_counterexample :
    (backup_keepass true true { verifyCorrupt := some [0], rbDeleteTempOk := false }
      [] "keepass.kdbx" [1, 2] "/Backups").res =
      .returned false "File integrity verification failed" ∧
    LogEvent.rollbackStarted ∈
      (backup_keepass true true { verifyCorrupt := some [0], rbDeleteTempOk := false }
        [] "keepass.kdbx" [1, 2] "/Backups").world.log ∧
    storeGet (backup_keepass true true { verifyCorrupt := some [0], rbDeleteTempOk := false }
        [] "keepass.kdbx" [1, 2] "/Backups").world.store
      (tempPath "/Backups" "keepass.kdbx") = some [1, 2] := by
  decide

/-- C6 (amended): when verification fails on a digest mismatch, rollback
is triggered before the run returns the integrity failure, the final
path is unchanged from its pre-run state, and the temporary object is
absent provided rollback's delete of it succeeded (rollback is
best-effort). -/
theorem C6_integrity_mismatch_rollback (store : Store) (o : Oracle)
    (file content folder : _)
    (hstat : o.statOk = true) (hchk : o.checkFinalRaises = false)
    (hup : o.uploadTempOk = true) (hvd : o.verifyDownloadOk = true)
    (hmm : calculate_checksum content ≠ calculate_checksum (o.verifyCorrupt.getD content)) :
    (backup_keepass true true o store file content folder).res =
      .returned false "File integrity verification failed" ∧
    LogEvent.rollbackStarted ∈ (backup_keepass true true o store file content folder).world.log ∧
    storeGet (backup_keepass true true o store file content folder).world.store
        (finalPath folder file) = storeGet store (finalPath folder file) ∧
    (o.rbDeleteTempOk = true →
      storeGet (backup_keepass true true o store file content folder).world.store
        (tempPath folder file) = none) := by
  have hcm := checksumsMatch_false_of_ne hmm
  have htf := tempPath_ne_finalPath folder file
  have hft := Ne.symm htf
  have hbf := backupPath_ne_finalPath folder file o.now
  have hbt := backupPath_ne_tempPath folder file o.now
  have hfb := Ne.symm hbf
  have htb := Ne.symm hbt
  have hot := optTruthy_of_ne_empty (tempPath_ne_empty folder file)
  simp only [finalPath, tempPath, backupPath] at htf hft hbf hbt hfb htb hot ⊢
  cases hfe : storeGet store (rstripSlash folder ++ "/" ++ basename file) <;>
    cases hsn : o.snapshotOk <;> cases hrdt : o.rbDeleteTempOk <;>
    simp [backup_keepass, check_file_exists, create_backup_copy, upload_file_temp,
          verify_upload, rollback, delete_file, addLog, addOp, hstat, hchk, hup, hvd, hsn,
          hfe, hrdt, hcm, hot, storeGet_set_self, storeGet_set_ne, storeGet_del_ne,
          storeGet_del_self, htf, hft, hbf, hbt, hfb, htb]

/-- Closed witness for C6's amended theorem at a concrete input. -/
theorem C6_integrity_mismatch_rollback_witness :
    (backup_keepass true true { verifyCorrupt := some [0] }
      [] "keepass.kdbx" [1, 2] "/Backups").res =
      .returned false "File integrity verification failed" ∧
    LogEvent.rollbackStarted ∈ (backup_keepass true true { verifyCorrupt := some [0] }
      [] "keepass.kdbx" [1, 2] "/Backups").world.log ∧
    storeGet (backup_keepass true true { verifyCorrupt := some [0] }
        [] "keepass.kdbx" [1, 2] "/Backups").world.store
        (finalPath "/Backups" "keepass.kdbx") = storeGet [] (finalPath "/Backups" "keepass.kdbx") ∧
    (({ verifyCorrupt := some [0] } : Oracle).rbDeleteTempOk = true →
      storeGet (backup_keepass true true { verifyCorrupt := some [0] }
          [] "keepass.kdbx" [1, 2] "/Backups").world.store
        (tempPath "/Backups" "keepass.kdbx") = none) :=
  C6_integrity_mismatch_rollback [] { verifyCorrupt := some [0] }
    "keepass.kdbx" [1, 2] "/Backups" rfl rfl rfl rfl (by decide)

/-- C7 (confirmed): when the step-4 upload of the local file to the
temporary path fails, the run aborts with the upload-failure error,
rollback is never invoked, the final-path object is unchanged from its
pre-run state, and the temporary path is unchanged (in particular, if no
temporary object existed before the run, none remains). -/
theorem C7_upload_failure_no_rollback (store : Store) (o : Oracle)
    (file content folder : _)
    (hstat : o.statOk = true) (hchk : o.checkFinalRaises = false)
    (hup : o.uploadTempOk = false) :
    (backup_keepass true true o store file content folder).res =
      .returned false "Failed to upload file to Dropbox" ∧
    LogEvent.rollbackStarted ∉ (backup_keepass true true o store file content folder).world.log ∧
    storeGet (backup_keepass true true o store file content folder).world.store
        (finalPath folder file) = storeGet store (finalPath folder file) ∧
    storeGet (backup_keepass true true o store file content folder).world.store
        (tempPath folder file) = storeGet store (tempPath folder file) ∧
    (storeGet store (tempPath folder file) = none →
      storeGet (backup_keepass true true o store file content folder).world.store
        (tempPath folder file) = none) := by
  have hbf := backupPath_ne_finalPath folder file o.now
  have hbt := backupPath_ne_tempPath folder file o.now
  have hfb := Ne.symm hbf
  have htb := Ne.symm hbt
  simp only [backupPath, finalPath, tempPath] at hbf hbt hfb htb ⊢
  simp only [backup_keepass, check_file_exists, create_backup_copy, upload_file_temp,
             addLog, addOp, hstat, hchk, hup, Bool.not_true, Bool.not_false,
             if_true, if_false, Bool.false_eq_true, Bool.true_eq_false, ite_false, ite_true]
  cases hfe : storeGet store (rstripSlash folder ++ "/" ++ basename file) with
  | none => simp [hfe]
  | some data =>
      cases hsn : o.snapshotOk with
      | false => simp [hfe, hsn]
      | true =>
          simp [hfe, hsn, storeGet_set_ne _ _ _ _ hfb, storeGet_set_ne _ _ _ _ htb]

/-- Closed witness for C7's theorem at a concrete input. -/
theorem C7_upload_failure_no_rollback_witness :
    (backup_keepass true true { uploadTempOk := false }
      [("/Backups/keepass.kdbx", [9])] "keepass.kdbx" [1, 2] "/Backups").res =
      .returned false "Failed to upload file to Dropbox" ∧
    LogEvent.rollbackStarted ∉ (backup_keepass true true { uploadTempOk := false }
      [("/Backups/keepass.kdbx", [9])] "keepass.kdbx" [1, 2] "/Backups").world.log ∧
    storeGet (backup_keepass true true { uploadTempOk := false }
        [("/Backups/keepass.kdbx", [9])] "keepass.kdbx" [1, 2] "/Backups").world.store
        (finalPath "/Backups" "keepass.kdbx") =
      storeGet [("/Backups/keepass.kdbx", [9])] (finalPath "/Backups" "keepass.kdbx") ∧
    storeGet (backup_keepass true true { uploadTempOk := false }
        [("/Backups/keepass.kdbx", [9])] "keepass.kdbx" [1, 2] "/Backups").world.store
        (tempPath "/Backups" "keepass.kdbx") =
      storeGet [("/Backups/keepass.kdbx", [9])] (tempPath "/Backups" "keepass.kdbx") ∧
    (storeGet [("/Backups/keepass.kdbx", [9])] (tempPath "/Backups" "keepass.kdbx") = none →
      storeGet (backup_keepass true true { uploadTempOk := false }
          [("/Backups/keepass.kdbx", [9])] "keepass.kdbx" [1, 2] "/Backups").world.store
        (tempPath "/Backups" "keepass.kdbx") = none) :=
  C7_upload_failure_no_rollback [("/Backups/keepass.kdbx", [9])] { uploadTempOk := false }
    "keepass.kdbx" [1, 2] "/Backups" rfl rfl rfl

/-- C5 (confirmed): at every point between remote calls in every run of
`backup_keepass`, the recorded RunState satisfies the invariant: at most
one of temporary-uploaded-and-not-promoted and promoted holds,
`old_file_deleted` is only set while promotion has not happened, and the
one atomic state update that marks promotion also clears
`temp_file_created` and `old_file_deleted`. -/
theorem C5_state_invariant (se si : Bool) (o : Oracle) (store : Store)
    (file content folder : _) :
    ∀ s ∈ (backup_keepass se si o store file content folder).trace, stateInv s := by
  intro s hs
  cases hse : se <;> cases hsi : si <;> cases hst : o.statOk <;> cases hch : o.checkFinalRaises <;>
    simp only [backup_keepass, hse, hsi, hst, hch, Bool.not_true, Bool.not_false,
               if_true, if_false, Bool.false_eq_true, Bool.true_eq_false] at hs <;>
    repeat' split at hs
  all_goals simp only [List.mem_cons, List.not_mem_nil] at hs
  all_goals repeat' (rcases hs with rfl | hs)
  all_goals first
    | exact hs.elim
    | simp [stateInv]

/-- Closed witness for C5's theorem at a concrete input. -/
theorem C5_state_invariant_witness :
    (backup_keepass true true {} [] "keepass.kdbx" [1] "/Backups").state ∈
      (backup_keepass true true {} [] "keepass.kdbx" [1] "/Backups").trace ∧
    stateInv (backup_keepass true true {} [] "keepass.kdbx" [1] "/Backups").state :=
  ⟨by decide,
   C5_state_invariant true true {} [] "keepass.kdbx" [1] "/Backups" _ (by decide)⟩

/-- C8 (confirmed): `calculate_checksum` consumes its input as a
sequence of chunks each of at most 4096 bytes whose concatenation is
exactly the file content, it is deterministic (byte-identical inputs
give identical digests), and the digest is a fixed-length 64-character
hex string. -/
theorem C8_checksum_chunked_deterministic (a b : List Nat) (h : a = b) :
    (∀ c ∈ chunksOf 4096 a, c.length ≤ 4096 ∧ c ≠ []) ∧
    (chunksOf 4096 a).flatten = a ∧
    calculate_checksum a = calculate_checksum b ∧
    (calculate_checksum a).length = 64 := by
  subst h
  refine ⟨fun c hc => chunksOf_sizes 4096 (by omega) a c hc,
          chunksOf_flatten 4096 (by omega) a, rfl, ?_⟩
  rw [calculate_checksum_eq_sha256hex]
  exact sha256hex_length a

/-- Closed witness for C8's theorem at a concrete input. -/
theorem C8_checksum_chunked_deterministic_witness :
    (∀ c ∈ chunksOf 4096 [1, 2, 3], c.length ≤ 4096 ∧ c ≠ []) ∧
    (chunksOf 4096 [1, 2, 3]).flatten = [1, 2, 3] ∧
    calculate_checksum [1, 2, 3] = calculate_checksum [1, 2, 3] ∧
    (calculate_checksum [1, 2, 3]).length = 64 :=
  C8_checksum_chunked_deterministic [1, 2, 3] [1, 2, 3] rfl

/-- C10 (confirmed): when an exception is raised inside
`backup_keepass` after the local existence check but before the Dropbox
client is assigned (here: reading the source file's size fails), the
`except` handler evaluates `rollback(dbx, state)` with `dbx` never
assigned, so `backup_keepass` raises (`UnboundLocalError`) instead of
returning a `(False, message)` result. -/
theorem C10_unbound_dbx_raises :
    (backup_keepass true true { statOk := false } []
      "keepass.kdbx" [1] "/KeepassBackups").res = .raised .unboundLocalDbx ∧
    ∀ ok msg, (backup_keepass true true { statOk := false } []
      "keepass.kdbx" [1] "/KeepassBackups").res ≠ .returned ok msg := by
  refine ⟨rfl, fun ok msg h => BkRes.noConfusion h⟩

/-- C3 (corrected): the snapshot path is recorded in the state
*before* the copy is attempted and regardless of its outcome — in this
concrete run the snapshot creation fails (warning logged) yet
`backup_path` is set. -/
theorem C3_backup_path_recorded_despite_failure :
    LogEvent.backupCopyFailed "/Backups/keepass_2024-01-01_00-00-00.kdbx" ∈
      (backup_keepass true true { snapshotOk := false }
        [("/Backups/keepass.kdbx", [9])] "keepass.kdbx" [1, 2] "/Backups").world.log ∧
    (backup_keepass true true { snapshotOk := false }
      [("/Backups/keepass.kdbx", [9])] "keepass.kdbx" [1, 2] "/Backups").state.backup_path =
      some "/Backups/keepass_2024-01-01_00-00-00.kdbx" := by
  decide

/-- C3 (amended): a failed snapshot attempt logs a warning and the
backup proceeds; the snapshot path is recorded in RunState even though
the creation failed, but — because rollback's restore branch checks the
snapshot object's existence — a failed snapshot never triggers a restore
action, and no object ever appears at the snapshot path. -/
theorem C3_snapshot_failure_nonfatal (store : Store) (o : Oracle)
    (file content folder : _) (old : List Nat)
    (hstat : o.statOk = true) (hchk : o.checkFinalRaises = false)
    (hfe : storeGet store (finalPath folder file) = some old)
    (hsn : o.snapshotOk = false)
    (hbp : storeGet store (backupPath folder file o.now) = none)
    (hrcr : o.rbCheckRaises = false) :
    (backup_keepass true true o store file content folder).state.backup_path =
      some (backupPath folder file o.now) ∧
    LogEvent.backupCopyFailed (backupPath folder file o.now) ∈
      (backup_keepass true true o store file content folder).world.log ∧
    RemoteOp.upload (tempPath folder file) o.uploadTempOk ∈
      (backup_keepass true true o store file content folder).world.ops ∧
    storeGet (backup_keepass true true o store file content folder).world.store
      (backupPath folder file o.now) = none ∧
    (∀ e ∈ (backup_keepass true true o store file content folder).world.log,
      isRestoreLog e = false) := by
  have htf := tempPath_ne_finalPath folder file
  have hft := Ne.symm htf
  have hbf := backupPath_ne_finalPath folder file o.now
  have hbt := backupPath_ne_tempPath folder file o.now
  have hfb := Ne.symm hbf
  have htb := Ne.symm hbt
  have hot := optTruthy_of_ne_empty (tempPath_ne_empty folder file)
  have hob := optTruthy_of_ne_empty (backupPath_ne_empty folder file o.now)
  have hof := optTruthy_of_ne_empty (finalPath_ne_empty folder file)
  simp only [finalPath, tempPath, backupPath] at htf hft hbf hbt hfb htb hot hob hof hfe hbp ⊢
  cases hup : o.uploadTempOk <;> cases hvd : o.verifyDownloadOk <;>
    cases hck : checksumsMatch content (o.verifyCorrupt.getD content) <;>
    cases hdo : o.deleteOldOk <;> cases hrn : o.renameOk <;> cases hrdt : o.rbDeleteTempOk <;>
    simp [backup_keepass, check_file_exists, create_backup_copy, upload_file_temp,
          verify_upload, rename_file, delete_file, rollback, exceptHandler, addLog, addOp,
          hstat, hchk, hsn, hfe, hbp, hrcr, hup, hvd, hck, hdo, hrn, hrdt, hot, hob, hof,
          isRestoreLog, List.forall_mem_cons, storeGet_set_self, storeGet_set_ne,
          storeGet_del_ne, storeGet_del_self, htf, hft, hbf, hbt, hfb, htb]

/-- Closed witness for C3's amended theorem at a concrete input. -/
theorem C3_snapshot_failure_nonfatal_witness :
    (backup_keepass true true { snapshotOk := false }
      [("/Backups/keepass.kdbx", [9])] "keepass.kdbx" [1, 2] "/Backups").state.backup_path =
      some (backupPath "/Backups" "keepass.kdbx" ({ snapshotOk := false } : Oracle).now) ∧
    LogEvent.backupCopyFailed (backupPath "/Backups" "keepass.kdbx"
        ({ snapshotOk := false } : Oracle).now) ∈
      (backup_keepass true true { snapshotOk := false }
        [("/Backups/keepass.kdbx", [9])] "keepass.kdbx" [1, 2] "/Backups").world.log ∧
    RemoteOp.upload (tempPath "/Backups" "keepass.kdbx")
        ({ snapshotOk := false } : Oracle).uploadTempOk ∈
      (backup_keepass true true { snapshotOk := false }
        [("/Backups/keepass.kdbx", [9])] "keepass.kdbx" [1, 2] "/Backups").world.ops ∧
    storeGet (backup_keepass true true { snapshotOk := false }
        [("/Backups/keepass.kdbx", [9])] "keepass.kdbx" [1, 2] "/Backups").world.store
      (backupPath "/Backups" "keepass.kdbx" ({ snapshotOk := false } : Oracle).now) = none ∧
    (∀ e ∈ (backup_keepass true true { snapshotOk := false }
        [("/Backups/keepass.kdbx", [9])] "keepass.kdbx" [1, 2] "/Backups").world.log,
      isRestoreLog e = false) :=
  C3_snapshot_failure_nonfatal [("/Backups/keepass.kdbx", [9])] { snapshotOk := false }
    "keepass.kdbx" [1, 2] "/Backups" [9] rfl rfl (by decide) rfl (by decide) rfl

/-- C9 (corrected): the "if" direction of the claimed iff fails — in
this run an object occupies the final path at step 3, yet no snapshot
object is ever created because the snapshot copy fails: the post-run
store holds exactly the new final object and nothing else. -/
theorem C9_snapshot_iff_counterexample :
    (storeGet [("/Backups/keepass.kdbx", [9])]
      (finalPath "/Backups" "keepass.kdbx")).isSome = true ∧
    (backup_keepass true true { snapshotOk := false } [("/Backups/keepass.kdbx", [9])]
      "keepass.kdbx" [1, 2] "/Backups").res =
      .returned true "Successfully backed up keepass.kdbx to /Backups/keepass.kdbx" ∧
    (backup_keepass true true { snapshotOk := false } [("/Backups/keepass.kdbx", [9])]
      "keepass.kdbx" [1, 2] "/Backups").world.store =
      [("/Backups/keepass.kdbx", [1, 2])] := by
  decide

/-- C9 (amended): a snapshot object can be created only when an object
occupied the final path at step 3 — when the existence check is false,
the recorded snapshot path stays unset and the run never creates an
object at any path other than the temporary and final paths; when the
check is true, the snapshot filename recorded is the original stem, an
underscore, the `YYYY-MM-DD_HH-MM-SS` second-resolution timestamp of the
run and the original extension (though its creation may still fail). -/
theorem C9_snapshot_only_from_existing (store : Store) (o : Oracle)
    (file content folder : _)
    (hstat : o.statOk = true) (hchk : o.checkFinalRaises = false)
    (hrcr : o.rbCheckRaises = false) :
    (storeGet store (finalPath folder file) = none →
      (backup_keepass true true o store file content folder).state.backup_path = none ∧
      ∀ q, q ≠ tempPath folder file → q ≠ finalPath folder file →
        storeGet (backup_keepass true true o store file content folder).world.store q =
          storeGet store q) ∧
    (∀ old, storeGet store (finalPath folder file) = some old →
      (backup_keepass true true o store file content folder).state.backup_path =
        some (rstripSlash folder ++ "/" ++
          (stemOf (basename file) ++ "_" ++ formatTimestamp o.now ++
            suffixOf (basename file)))) := by
  have hot := optTruthy_of_ne_empty (tempPath_ne_empty folder file)
  have hob := optTruthy_of_ne_empty (backupPath_ne_empty folder file o.now)
  have hof := optTruthy_of_ne_empty (finalPath_ne_empty folder file)
  have htf := tempPath_ne_finalPath folder file
  have hft := Ne.symm htf
  have hbf := backupPath_ne_finalPath folder file o.now
  have hbt := backupPath_ne_tempPath folder file o.now
  have hfb := Ne.symm hbf
  have htb := Ne.symm hbt
  simp only [finalPath, tempPath, backupPath, generate_backup_filename] at hot hob hof htf hft hbf hbt hfb htb
  constructor
  · intro hfe
    simp only [finalPath] at hfe
    constructor
    · cases hup : o.uploadTempOk <;> cases hvd : o.verifyDownloadOk <;>
        cases hck : checksumsMatch content (o.verifyCorrupt.getD content) <;>
        cases hrn : o.renameOk <;> cases hrdt : o.rbDeleteTempOk <;>
        simp [backup_keepass, check_file_exists, create_backup_copy, upload_file_temp,
              verify_upload, rename_file, delete_file, rollback, exceptHandler, addLog,
              addOp, hstat, hchk, hrcr, hfe, hup, hvd, hck, hrn, hrdt, hot, hob, hof, htf, hft, hbf, hbt, hfb, htb,
              storeGet_set_self, storeGet_set_ne, storeGet_del_ne, storeGet_del_self]
    · intro q hq1 hq2
      simp only [tempPath, finalPath] at hq1 hq2
      cases hup : o.uploadTempOk <;> cases hvd : o.verifyDownloadOk <;>
        cases hck : checksumsMatch content (o.verifyCorrupt.getD content) <;>
        cases hrn : o.renameOk <;> cases hrdt : o.rbDeleteTempOk <;>
        simp [backup_keepass, check_file_exists, create_backup_copy, upload_file_temp,
              verify_upload, rename_file, delete_file, rollback, exceptHandler, addLog,
              addOp, hstat, hchk, hrcr, hfe, hup, hvd, hck, hrn, hrdt, hot, hob, hof, htf, hft, hbf, hbt, hfb, htb,
              hq1, hq2, storeGet_set_self, storeGet_set_ne, storeGet_del_ne,
              storeGet_del_self]
  · intro old hfe
    simp only [finalPath] at hfe
    cases hsn : o.snapshotOk <;> cases hup : o.uploadTempOk <;> cases hvd : o.verifyDownloadOk <;>
      cases hck : checksumsMatch content (o.verifyCorrupt.getD content) <;>
      cases hdo : o.deleteOldOk <;> cases hrn : o.renameOk <;> cases hrdt : o.rbDeleteTempOk <;>
      cases hrrs : o.rbRestoreOk <;>
      cases hpb : storeGet store (rstripSlash folder ++ "/" ++
        (stemOf (basename file) ++ "_" ++ formatTimestamp o.now ++ suffixOf (basename file))) <;>
      simp [backup_keepass, check_file_exists, create_backup_copy, upload_file_temp,
            verify_upload, rename_file, delete_file, rollback, exceptHandler, addLog,
            addOp, hstat, hchk, hrcr, hfe, hsn, hup, hvd, hck, hdo, hrn, hrdt, hrrs, hpb, hot, hob, hof, htf, hft, hbf, hbt, hfb, htb,
            generate_backup_filename, storeGet_set_self, storeGet_set_ne, storeGet_del_ne,
            storeGet_del_self]

/-- Closed witness for C9's amended theorem at a concrete input. -/
theorem C9_snapshot_only_from_existing_witness :
    (storeGet ([] : Store) (finalPath "/Backups" "keepass.kdbx") = none →
      (backup_keepass true true {} [] "keepass.kdbx" [1, 2] "/Backups").state.backup_path =
        none ∧
      ∀ q, q ≠ tempPath "/Backups" "keepass.kdbx" → q ≠ finalPath "/Backups" "keepass.kdbx" →
        storeGet (backup_keepass true true {} [] "keepass.kdbx" [1, 2]
            "/Backups").world.store q = storeGet [] q) ∧
    (∀ old, storeGet ([] : Store) (finalPath "/Backups" "keepass.kdbx") = some old →
      (backup_keepass true true {} [] "keepass.kdbx" [1, 2] "/Backups").state.backup_path =
        some (rstripSlash "/Backups" ++ "/" ++
          (stemOf (basename "keepass.kdbx") ++ "_" ++ formatTimestamp ({} : Oracle).now ++
            suffixOf (basename "keepass.kdbx")))) :=
  C9_snapshot_only_from_existing [] {} "keepass.kdbx" [1, 2] "/Backups" rfl rfl rfl

/-- Closed witness for C1's theorem at a concrete input. -/
theorem C1_delete_failure_still_attempts_promotion_witness :
    (backup_keepass true true { snapshotOk := false, deleteOldOk := false }
        [("/Backups/keepass.kdbx", [9])] "keepass.kdbx" [1, 2] "/Backups").res =
      .returned false "Failed to rename temporary file to final name" ∧
    RemoteOp.move (tempPath "/Backups" "keepass.kdbx") (finalPath "/Backups" "keepass.kdbx")
        false ∈
      (backup_keepass true true { snapshotOk := false, deleteOldOk := false }
        [("/Backups/keepass.kdbx", [9])] "keepass.kdbx" [1, 2] "/Backups").world.ops ∧
    LogEvent.rollbackStarted ∈
      (backup_keepass true true { snapshotOk := false, deleteOldOk := false }
        [("/Backups/keepass.kdbx", [9])] "keepass.kdbx" [1, 2] "/Backups").world.log ∧
    storeGet (backup_keepass true true { snapshotOk := false, deleteOldOk := false }
        [("/Backups/keepass.kdbx", [9])] "keepass.kdbx" [1, 2] "/Backups").world.store
      (finalPath "/Backups" "keepass.kdbx") = some [9] :=
  C1_delete_failure_still_attempts_promotion
    [("/Backups/keepass.kdbx", [9])] { snapshotOk := false, deleteOldOk := false }
    "keepass.kdbx" [1, 2] "/Backups" [9] rfl rfl (by decide) rfl rfl rfl rfl

end KeepassBackup
